import Mathlib

/-!
Verification development for `change_mac.py`, a small interactive utility
that changes a network interface's MAC address on Linux, macOS or Windows,
with backup/restore of the original address.

The script is embedded shallowly:

* Pure string processing (the regexes of the script, `str.strip`, `int(...)`
  parsing, Python list indexing) becomes Lean functions on `String` /
  `List Char`.  The regexes of the script are fixed-shape, so each one is
  translated into a dedicated deterministic matcher.  Python's `re.match`
  with a final `$` also accepts a single trailing newline, and this is
  modelled faithfully.  The digit class `\d` of the MAC regexes
  is modelled as the full Unicode Nd category, as Python's `re` matches it;
  the remaining character-level operations (`\w`, `int()` digits,
  `str.lower`, whitespace stripping) are modelled at ASCII granularity,
  which is immaterial to the control-flow and trace properties proved
  about them.
* Side effects (logging, `subprocess` invocations, file writes) are recorded
  in an event trace; `print` calls to the console are not modelled.
* Process termination is modelled by an `Outcome`: `sys.exit(n)` becomes
  `Outcome.exited n` and an unhandled Python exception becomes
  `Outcome.crashed reason`.  A Python `except Exception` block catches
  ordinary exceptions but not `SystemExit`, so `.exited` propagates through
  the `try` blocks of the script while locally raised exceptions are handled
  where the script handles them.
* External inputs (the platform, `os.geteuid()`, subprocess results, file
  contents) are supplied by an environment `Env`; standard input is a list
  of lines (a missing line is Python's `EOFError`, an unhandled crash).
-/

/-- The supported operating systems, as classified by `get_os` from
`sys.platform` prefixes (`linux`, `darwin`, `win`). -/
inductive OSType where
  | linux
  | macos
  | windows
deriving DecidableEq, Repr

/-- Observable effects of the script: a `subprocess.check_output` call
(`spawn`), a `subprocess.run` call (`run`), log lines, and file writes.
Console `print` output is not modelled. -/
inductive Event where
  | spawn (argv : List String)
  | run (argv : List String)
  | logInfo (msg : String)
  | logError (msg : String)
  | fileWrite (path : String) (content : String)
deriving DecidableEq, Repr

/-- How a piece of the script finishes: normally, via `sys.exit(code)`
(a `SystemExit`, which `except Exception` does not catch), or via an
unhandled ordinary exception. -/
inductive Outcome (α : Type) where
  | ok (a : α)
  | exited (code : Nat)
  | crashed (reason : String)
deriving DecidableEq, Repr

/-- Sequencing: run `x`; if it finished normally, continue with `f`,
accumulating the event traces; `sys.exit` and unhandled exceptions
propagate. -/
def andThen {α β : Type} (x : List Event × Outcome α)
    (f : α → List Event × Outcome β) : List Event × Outcome β :=
  match x with
  | (t, .ok a) => let r := f a; (t ++ r.1, r.2)
  | (t, .exited n) => (t, .exited n)
  | (t, .crashed m) => (t, .crashed m)

/-- Unicode decimal digits, general category Nd: the meaning of `\d` in
Python 3 regular expressions (CPython 3.11, Unicode 14.0 tables), listed
as the code-point ranges of category Nd. -/
def isDigitNd (c : Char) : Bool :=
  let n := c.toNat
  (0x30 ≤ n && n ≤ 0x39) || (0x660 ≤ n && n ≤ 0x669) ||
  (0x6F0 ≤ n && n ≤ 0x6F9) || (0x7C0 ≤ n && n ≤ 0x7C9) ||
  (0x966 ≤ n && n ≤ 0x96F) || (0x9E6 ≤ n && n ≤ 0x9EF) ||
  (0xA66 ≤ n && n ≤ 0xA6F) || (0xAE6 ≤ n && n ≤ 0xAEF) ||
  (0xB66 ≤ n && n ≤ 0xB6F) || (0xBE6 ≤ n && n ≤ 0xBEF) ||
  (0xC66 ≤ n && n ≤ 0xC6F) || (0xCE6 ≤ n && n ≤ 0xCEF) ||
  (0xD66 ≤ n && n ≤ 0xD6F) || (0xDE6 ≤ n && n ≤ 0xDEF) ||
  (0xE50 ≤ n && n ≤ 0xE59) || (0xED0 ≤ n && n ≤ 0xED9) ||
  (0xF20 ≤ n && n ≤ 0xF29) || (0x1040 ≤ n && n ≤ 0x1049) ||
  (0x1090 ≤ n && n ≤ 0x1099) || (0x17E0 ≤ n && n ≤ 0x17E9) ||
  (0x1810 ≤ n && n ≤ 0x1819) || (0x1946 ≤ n && n ≤ 0x194F) ||
  (0x19D0 ≤ n && n ≤ 0x19D9) || (0x1A80 ≤ n && n ≤ 0x1A89) ||
  (0x1A90 ≤ n && n ≤ 0x1A99) || (0x1B50 ≤ n && n ≤ 0x1B59) ||
  (0x1BB0 ≤ n && n ≤ 0x1BB9) || (0x1C40 ≤ n && n ≤ 0x1C49) ||
  (0x1C50 ≤ n && n ≤ 0x1C59) || (0xA620 ≤ n && n ≤ 0xA629) ||
  (0xA8D0 ≤ n && n ≤ 0xA8D9) || (0xA900 ≤ n && n ≤ 0xA909) ||
  (0xA9D0 ≤ n && n ≤ 0xA9D9) || (0xA9F0 ≤ n && n ≤ 0xA9F9) ||
  (0xAA50 ≤ n && n ≤ 0xAA59) || (0xABF0 ≤ n && n ≤ 0xABF9) ||
  (0xFF10 ≤ n && n ≤ 0xFF19) || (0x104A0 ≤ n && n ≤ 0x104A9) ||
  (0x10D30 ≤ n && n ≤ 0x10D39) || (0x11066 ≤ n && n ≤ 0x1106F) ||
  (0x110F0 ≤ n && n ≤ 0x110F9) || (0x11136 ≤ n && n ≤ 0x1113F) ||
  (0x111D0 ≤ n && n ≤ 0x111D9) || (0x112F0 ≤ n && n ≤ 0x112F9) ||
  (0x11450 ≤ n && n ≤ 0x11459) || (0x114D0 ≤ n && n ≤ 0x114D9) ||
  (0x11650 ≤ n && n ≤ 0x11659) || (0x116C0 ≤ n && n ≤ 0x116C9) ||
  (0x11730 ≤ n && n ≤ 0x11739) || (0x118E0 ≤ n && n ≤ 0x118E9) ||
  (0x11950 ≤ n && n ≤ 0x11959) || (0x11C50 ≤ n && n ≤ 0x11C59) ||
  (0x11D50 ≤ n && n ≤ 0x11D59) || (0x11DA0 ≤ n && n ≤ 0x11DA9) ||
  (0x16A60 ≤ n && n ≤ 0x16A69) || (0x16AC0 ≤ n && n ≤ 0x16AC9) ||
  (0x16B50 ≤ n && n ≤ 0x16B59) || (0x1D7CE ≤ n && n ≤ 0x1D7FF) ||
  (0x1E140 ≤ n && n ≤ 0x1E149) || (0x1E2F0 ≤ n && n ≤ 0x1E2F9) ||
  (0x1E950 ≤ n && n ≤ 0x1E959) || (0x1FBF0 ≤ n && n ≤ 0x1FBF9)

/-- The character class `[\da-fA-F]` of the script's MAC regexes:
Python's `\d` (any Unicode Nd digit) or a case-insensitive ASCII hex
letter. -/
def isHexPy (c : Char) : Bool :=
  isDigitNd c || ('a' ≤ c && c ≤ 'f') || ('A' ≤ c && c ≤ 'F')

/-- Consume `n` repetitions of `[\da-fA-F]{2}:` from the front of a
character list, returning the rest; `none` if the input does not start
with `n` such groups. -/
def hexPairColon : Nat → List Char → Option (List Char)
  | 0, cs => some cs
  | n + 1, a :: b :: c :: cs =>
      if isHexPy a && isHexPy b && c == ':' then hexPairColon n cs else none
  | _ + 1, _ => none

/-- The tail `[\da-fA-F]{2}$` of the validator regex under Python
`re` semantics: `$` matches at the end of the string or just before a
single newline at the end of the string. -/
def macTailDollar : List Char → Bool
  | [a, b] => isHexPy a && isHexPy b
  | [a, b, c] => isHexPy a && isHexPy b && c == '\n'
  | _ => false

/-- Function `validate_mac` (change_mac.py:76-80): Python
`re.match(r'^([\da-fA-F]{2}:){5}[\da-fA-F]{2}$', mac)` is truthy.
The regex is fixed-shape: five `hex hex :` groups, two hex digits, then
`$` with Python's trailing-newline allowance. -/
def validate_mac (mac : String) : Bool :=
  match hexPairColon 5 mac.data with
  | some rest => macTailDollar rest
  | none => false

/-- The ASCII hex-digit class `[0-9a-fA-F]` of the spec's regex. -/
def isHexAscii (c : Char) : Bool :=
  ('0' ≤ c && c ≤ '9') || ('a' ≤ c && c ≤ 'f') || ('A' ≤ c && c ≤ 'F')

/-- The spec's canonical MAC form `XX:XX:XX:XX:XX:XX`, read strictly:
the whole string is exactly six two-ASCII-hex-digit groups separated by
colons, with nothing else (no trailing newline, no non-ASCII digits).
This is the spec-side reading of `^([0-9a-fA-F]{2}:){5}[0-9a-fA-F]{2}$`,
used to compare the validator against the spec's words. -/
def canonicalMac (s : String) : Bool :=
  match s.data with
  | [a, b, ':', c, d, ':', e, f, ':', g, h, ':', i, j, ':', k, l] =>
      [a, b, c, d, e, f, g, h, i, j, k, l].all isHexAscii
  | _ => false

/-- The strict six-group form over the program's own character class
`[\da-fA-F]` (Unicode digits allowed, no trailing newline); the
acceptance set of `validate_mac` is exactly this form plus its
one-trailing-newline variants. -/
def pyCanonicalMac (s : String) : Bool :=
  match hexPairColon 5 s.data with
  | some [a, b] => isHexPy a && isHexPy b
  | _ => false

/-- ASCII whitespace, for Python's `str.strip()` (which also strips some
non-ASCII Unicode whitespace; irrelevant here). -/
def isSpacePy (c : Char) : Bool :=
  c == ' ' || c == '\t' || c == '\n' || c == '\r' || c == '\x0b' || c == '\x0c'

/-- Python `str.strip()`: drop leading and trailing whitespace. -/
def pyStrip (s : String) : String :=
  String.mk (((s.data.dropWhile isSpacePy).reverse.dropWhile isSpacePy).reverse)

/-- Value of a non-empty all-digit string, else `none`. -/
def digitsVal : List Char → Option Nat
  | [] => none
  | cs =>
      if cs.all Char.isDigit then
        some (cs.foldl (fun acc c => acc * 10 + (c.toNat - '0'.toNat)) 0)
      else none

/-- Python `int(s)` for a line of input: strips surrounding whitespace,
allows one optional sign, then decimal digits; `none` models a raised
`ValueError`.  (Python's underscore digit grouping and non-ASCII digits
are not modelled.) -/
def pyInt (s : String) : Option Int :=
  match (pyStrip s).data with
  | '-' :: ds => (digitsVal ds).map (fun n => -(n : Int))
  | '+' :: ds => (digitsVal ds).map (fun n => (n : Int))
  | ds => (digitsVal ds).map (fun n => (n : Int))

/-- Python list indexing `l[i]`: negative indices count from the end;
`none` models a raised `IndexError`. -/
def pyIndex {α : Type} (l : List α) (i : Int) : Option α :=
  if 0 ≤ i then l.get? i.toNat
  else if 0 ≤ (l.length : Int) + i then l.get? ((l.length : Int) + i).toNat
  else none

/-- The interface selection of `main` (change_mac.py:144-145):
`interface = interfaces[int(input(...)) - 1]`.  An error is the name of
the unhandled Python exception it raises. -/
def selectInterface (interfaces : List String) (entry : String) :
    Except String String :=
  match pyInt entry with
  | none => .error "ValueError"
  | some n =>
      match pyIndex interfaces (n - 1) with
      | none => .error "IndexError"
      | some iface => .ok iface

/-- The external world as the script observes it.  `platform` is `none`
when `sys.platform` starts with none of `linux`, `darwin`, `win`.
`checkOutput` gives the decoded stdout of a `subprocess.check_output`
call, or the text of the exception it raises.  `runOk` says whether a
`subprocess.run(..., check=True)` call succeeds; when it fails, `runErr`
is the text of the raised exception.  `readFile` gives a file's contents
or the text of the `IOError` opening it raises; `writeOk` says whether
opening a file for writing succeeds. -/
structure Env where
  platform : Option OSType
  euid : Nat
  checkOutput : List String → Except String String
  runOk : List String → Bool
  runErr : List String → String
  readFile : String → Except String String
  writeOk : String → Bool

/-- Function `get_os` (change_mac.py:18-28): classify the platform or log an error
and `sys.exit(1)`. -/
def get_os (env : Env) : List Event × Outcome OSType :=
  match env.platform with
  | some os => ([], .ok os)
  | none => ([.logError "Unsupported operating system."], .exited 1)

/-- The character class `\w` of `re.findall(r'^\w+', ...)`, at ASCII
granularity (letters, digits, underscore). -/
def isWordPy (c : Char) : Bool :=
  c.isAlphanum || c == '_'

/-- The Unix interface parse of `get_interfaces`:
`re.findall(r'^\w+', output, re.MULTILINE)` — for each line, its maximal
leading run of word characters, kept when non-empty, in line order. -/
def parseUnixInterfaces (output : String) : List String :=
  (output.splitOn "\n").filterMap (fun line =>
    let w := line.data.takeWhile isWordPy
    if w.isEmpty then none else some (String.mk w))

/-- One line of the Windows interface parse
`re.findall(r'^Ethernet adapter (.+):', output, re.MULTILINE)`: the line
must start with the literal, and the greedy `.+` captures everything up
to the last colon of the line, non-empty. -/
def parseWindowsLine (line : String) : Option String :=
  if line.startsWith "Ethernet adapter " then
    let rest := line.data.drop 17
    let afterLastColon := rest.reverse.takeWhile (fun c => c != ':')
    if afterLastColon.length == rest.length then none
    else
      let captured := rest.take (rest.length - afterLastColon.length - 1)
      if captured.isEmpty then none else some (String.mk captured)
  else none

/-- The Windows interface parse of `get_interfaces`, line by line. -/
def parseWindowsInterfaces (output : String) : List String :=
  (output.splitOn "\n").filterMap parseWindowsLine

/-- Function `get_interfaces` (change_mac.py:30-54): run the platform's listing
command, parse its output, and exit fatally on a subprocess error or an
empty result. -/
def get_interfaces (env : Env) : List Event × Outcome (List String) :=
  andThen (get_os env) fun os =>
  andThen
    (match os with
     | .linux | .macos =>
        match env.checkOutput ["ifconfig"] with
        | .ok output => ([.spawn ["ifconfig"]], .ok (parseUnixInterfaces output))
        | .error e =>
            ([.spawn ["ifconfig"],
              .logError ("Error detecting interfaces: " ++ e)], .exited 1)
     | .windows =>
        match env.checkOutput ["ipconfig"] with
        | .ok output => ([.spawn ["ipconfig"]], .ok (parseWindowsInterfaces output))
        | .error e =>
            ([.spawn ["ipconfig"],
              .logError ("Error detecting interfaces: " ++ e)], .exited 1))
    fun interfaces =>
  if interfaces.isEmpty then
    ([.logError "No network interfaces found."], .exited 1)
  else ([], .ok interfaces)

/-- The character class `[\da-fA-F:]` of the Unix MAC extraction regex. -/
def isHexColon (c : Char) : Bool :=
  isHexPy c || c == ':'

/-- The character class `[\da-fA-F-]` of the Windows MAC extraction regex. -/
def isHexDash (c : Char) : Bool :=
  isHexPy c || c == '-'

/-- Try the pattern `ether ([\da-fA-F:]{17})` at the current position:
the literal `ether ` followed by exactly 17 class characters. -/
def tryEther (cs : List Char) : Option (List Char) :=
  match cs with
  | 'e' :: 't' :: 'h' :: 'e' :: 'r' :: ' ' :: rest =>
      if (rest.take 17).length == 17 && (rest.take 17).all isHexColon then
        some (rest.take 17)
      else none
  | _ => none

/-- Pattern `re.search(r.ether ([\da-fA-F:]{17})', output)`: scan left to right,
first position where the pattern matches wins. -/
def searchEther : List Char → Option (List Char)
  | [] => none
  | c :: rest =>
      match tryEther (c :: rest) with
      | some tok => some tok
      | none => searchEther rest

/-- Pattern `re.search(r'([\da-fA-F-]{17})', line)`: first position with 17
consecutive class characters. -/
def searchRun17 : List Char → Option (List Char)
  | [] => none
  | c :: rest =>
      if ((c :: rest).take 17).length == 17 && ((c :: rest).take 17).all isHexDash then
        some ((c :: rest).take 17)
      else searchRun17 rest

/-- Substring test, Python's `needle in hay`. -/
def containsSub (hay needle : List Char) : Bool :=
  match hay with
  | [] => needle.isEmpty
  | _ :: rest => needle.isPrefixOf hay || containsSub rest needle

/-- Python `'-'`-to-`':'` replacement, `str.replace('-', ':')`. -/
def dashToColon (c : Char) : Char :=
  if c == '-' then ':' else c

/-- The Windows line scan of `get_current_mac`: for each line containing
the interface name, return the first 17-character dash/hex run, dashes
replaced by colons; otherwise keep scanning. -/
def winMacScan (interface : String) : List String → Option String
  | [] => none
  | line :: rest =>
      if containsSub line.data interface.data then
        match searchRun17 line.data with
        | some tok => some (String.mk (tok.map dashToColon))
        | none => winMacScan interface rest
      else winMacScan interface rest

/-- Function `get_current_mac` (change_mac.py:56-74): run the platform's query
command and extract the MAC; a subprocess error is logged and yields
`none`, as does a failed pattern match.  (Python `splitlines` is modelled
as splitting on a line feed.) -/
def get_current_mac (env : Env) (interface : String) :
    List Event × Outcome (Option String) :=
  andThen (get_os env) fun os =>
  match os with
  | .linux | .macos =>
      match env.checkOutput ["ifconfig", interface] with
      | .ok output =>
          ([.spawn ["ifconfig", interface]],
           .ok ((searchEther output.data).map String.mk))
      | .error e =>
          ([.spawn ["ifconfig", interface],
            .logError ("Error getting MAC address: " ++ e)], .ok none)
  | .windows =>
      match env.checkOutput ["getmac", "/FO", "CSV", "/V"] with
      | .ok output =>
          ([.spawn ["getmac", "/FO", "CSV", "/V"]],
           .ok (winMacScan interface (output.splitOn "\n")))
      | .error e =>
          ([.spawn ["getmac", "/FO", "CSV", "/V"],
            .logError ("Error getting MAC address: " ++ e)], .ok none)

/-- Function `change_mac` (change_mac.py:82-97): the platform-specific mutation
sequence with `check=True` on every call; the first failure raises, the
`except Exception` logs it and calls `sys.exit(1)`.  A `run` event records
each attempted `subprocess.run` invocation. -/
def change_mac (env : Env) (interface new_mac : String) :
    List Event × Outcome Unit :=
  andThen (get_os env) fun os =>
  match os with
  | .linux =>
      let c1 := ["sudo", "ifconfig", interface, "down"]
      let c2 := ["sudo", "ifconfig", interface, "hw", "ether", new_mac]
      let c3 := ["sudo", "ifconfig", interface, "up"]
      if env.runOk c1 then
        if env.runOk c2 then
          if env.runOk c3 then
            ([.run c1, .run c2, .run c3,
              .logInfo ("MAC address changed to " ++ new_mac ++ " on " ++ interface ++ ".")],
             .ok ())
          else
            ([.run c1, .run c2, .run c3,
              .logError ("Error changing MAC address: " ++ env.runErr c3)], .exited 1)
        else
          ([.run c1, .run c2,
            .logError ("Error changing MAC address: " ++ env.runErr c2)], .exited 1)
      else
        ([.run c1,
          .logError ("Error changing MAC address: " ++ env.runErr c1)], .exited 1)
  | .macos =>
      let c := ["sudo", "ifconfig", interface, "ether", new_mac]
      if env.runOk c then
        ([.run c,
          .logInfo ("MAC address changed to " ++ new_mac ++ " on " ++ interface ++ ".")],
         .ok ())
      else
        ([.run c,
          .logError ("Error changing MAC address: " ++ env.runErr c)], .exited 1)
  | .windows =>
      let c := ["netsh", "interface", "set", "interface", interface,
                "newmac=" ++ new_mac]
      if env.runOk c then
        ([.run c,
          .logInfo ("MAC address changed to " ++ new_mac ++ " on " ++ interface ++ ".")],
         .ok ())
      else
        ([.run c,
          .logError ("Error changing MAC address: " ++ env.runErr c)], .exited 1)

/-- Function `backup_mac` (change_mac.py:99-107): read the current MAC; when
present, write it as the sole content of the backup file (mode `w`,
truncating) and log success; when absent, log failure and continue.  A
failure to open the backup file for writing is an unhandled exception. -/
def backup_mac (env : Env) (interface backup_file : String) :
    List Event × Outcome Unit :=
  andThen (get_current_mac env interface) fun current_mac =>
  match current_mac with
  | some mac =>
      if env.writeOk backup_file then
        ([.fileWrite backup_file mac,
          .logInfo ("Backed up MAC address " ++ mac ++ " to " ++ backup_file ++ ".")],
         .ok ())
      else ([], .crashed "OSError")
  | none => ([.logError "Failed to backup MAC address."], .ok ())

/-- Function `restore_mac` (change_mac.py:109-120): read and strip the backup
file's contents; if the result validates, reapply it via `change_mac`
and log success, else log an error.  The `except Exception` catches the
read error but not the `SystemExit` that a failing `change_mac` raises. -/
def restore_mac (env : Env) (interface backup_file : String) :
    List Event × Outcome Unit :=
  match env.readFile backup_file with
  | .error e =>
      ([.logError ("Error restoring MAC address: " ++ e)], .ok ())
  | .ok content =>
      let original_mac := pyStrip content
      if validate_mac original_mac then
        let r := change_mac env interface original_mac
        match r.2 with
        | .ok _ =>
            (r.1 ++ [.logInfo ("Restored MAC address to " ++ original_mac ++
                               " on " ++ interface ++ ".")], .ok ())
        | o => (r.1, o)
      else
        ([.logError "Invalid MAC address in backup file."], .ok ())

/-- Function `check_permissions` (change_mac.py:122-133): on Linux/macOS the
effective UID must be 0, else log and `sys.exit(1)`; on Windows a
`whoami /priv` probe must succeed; on an unrecognized platform no check
is made (the function falls through). -/
def check_permissions (env : Env) : List Event × Outcome Unit :=
  match env.platform with
  | some .linux | some .macos =>
      if env.euid != 0 then
        ([.logError "This script requires root privileges. Please run with sudo."],
         .exited 1)
      else ([], .ok ())
  | some .windows =>
      match env.checkOutput ["whoami", "/priv"] with
      | .ok _ => ([.spawn ["whoami", "/priv"]], .ok ())
      | .error _ =>
          ([.spawn ["whoami", "/priv"],
            .logError "This script requires administrator privileges."], .exited 1)
  | none => ([], .ok ())

/-- Python `str.lower()`, ASCII granularity. -/
def pyLower (s : String) : String :=
  String.mk (s.data.map Char.toLower)

/-- The new-MAC prompt loop of `main` (change_mac.py:152-156): read lines
until one validates after stripping; running out of input is Python's
`EOFError` from `input()`, an unhandled crash. -/
def promptLoop : List String → List Event × Outcome (String × List String)
  | [] => ([], .crashed "EOFError")
  | line :: rest =>
      let new_mac := pyStrip line
      if validate_mac new_mac then ([], .ok (new_mac, rest))
      else promptLoop rest

/-- Function `main` (change_mac.py:135-170), named `mainFlow` here because Lean reserves `main`: privilege check, interface listing and
selection, backup, new-MAC prompt loop, mutation, verification read, and
the optional restore.  `stdin` is the list of lines standard input will
yield; console prints (menu, success message, prompts) are not modelled. -/
def mainFlow (env : Env) (stdin : List String) : List Event × Outcome Unit :=
  andThen (check_permissions env) fun _ =>
  andThen (get_interfaces env) fun interfaces =>
  match stdin with
  | [] => ([], .crashed "EOFError")
  | entry :: stdin1 =>
    match selectInterface interfaces entry with
    | .error e => ([], .crashed e)
    | .ok interface =>
      let backup_file := interface ++ "_mac_backup.txt"
      andThen (backup_mac env interface backup_file) fun _ =>
      andThen (promptLoop stdin1) fun p =>
      andThen (change_mac env interface p.1) fun _ =>
      andThen (get_current_mac env interface) fun _ =>
      match p.2 with
      | [] => ([], .crashed "EOFError")
      | answer :: _ =>
          if pyLower answer == "y" then restore_mac env interface backup_file
          else ([], .ok ())

/-- Effect of one event on a file system (path to contents); a
`fileWrite` is Python's mode `w`: truncate and overwrite. -/
def applyEvent (fs : String → Option String) : Event → (String → Option String)
  | .fileWrite p c => fun q => if q = p then some c else fs q
  | _ => fs

/-- Effect of a trace on a file system, in order. -/
def applyEvents (fs : String → Option String) (es : List Event) :
    String → Option String :=
  es.foldl applyEvent fs


/-- A Linux root environment in which every mutation command succeeds,
no listing command produces output, and the backup file reads back
empty. -/
def envBase : Env where
  platform := some OSType.linux
  euid := 0
  checkOutput := fun _ => .error "no output"
  runOk := fun _ => true
  runErr := fun _ => "CalledProcessError"
  readFile := fun _ => .ok ""
  writeOk := fun _ => true

/-- Environment `envBase` with a backup file containing the round-trip
MAC of the spec's backup/restore property. -/
def envC2 : Env :=
  { envBase with readFile := fun _ => .ok "DE:AD:BE:EF:00:01" }

/-- Environment `envBase` with a valid backup file but every mutation
command failing. -/
def envC4 : Env :=
  { envBase with
      readFile := fun _ => .ok "DE:AD:BE:EF:00:01",
      runOk := fun _ => false }

/-- Environment `envBase` with a non-root effective UID. -/
def envNonRoot : Env :=
  { envBase with euid := 1000 }

/-- Environment whose `ifconfig eth0` output carries a 17-character
hex-and-colon token after `ether ` that is not of the canonical
`XX:XX:XX:XX:XX:XX` grouping. -/
def envC9 : Env :=
  { envBase with
      checkOutput := fun argv =>
        if argv = ["ifconfig", "eth0"] then
          .ok "eth0: flags=4163
        ether aaa:bb:cc:dd:ee:f  txqueuelen 1000
"
        else .error "no output" }

/-- Environment whose `ifconfig eth0` output carries the canonical MAC
`11:22:33:44:55:66`. -/
def envC10 : Env :=
  { envBase with
      checkOutput := fun argv =>
        if argv = ["ifconfig", "eth0"] then
          .ok "eth0: flags=4163
        ether 11:22:33:44:55:66  txqueuelen 1000
"
        else .error "no output" }


theorem hexPairColon_append (n : Nat) :
    ∀ cs e r : List Char, hexPairColon n cs = some r →
      hexPairColon n (cs ++ e) = some (r ++ e) := by
  induction n with
  | zero =>
      intro cs e r h
      simp [hexPairColon] at h ⊢
      exact h
  | succ n ih =>
      intro cs e r h
      match cs with
      | [] => simp [hexPairColon] at h
      | [a] => simp [hexPairColon] at h
      | [a, b] => simp [hexPairColon] at h
      | a :: b :: c :: cs =>
          rw [hexPairColon] at h
          by_cases hc : (isHexPy a && isHexPy b && c == ':') = true
          · rw [hc] at h
            simp only [if_true] at h
            show hexPairColon (n + 1) (a :: b :: c :: (cs ++ e)) = some (r ++ e)
            rw [hexPairColon, hc]
            simp only [if_true]
            exact ih cs e r h
          · rw [eq_false_of_ne_true hc] at h
            simp at h

theorem hexPairColon_split (n : Nat) :
    ∀ cs r : List Char, hexPairColon n cs = some r →
      ∃ pre, cs = pre ++ r ∧ ∀ e, hexPairColon n (pre ++ e) = some e := by
  induction n with
  | zero =>
      intro cs r h
      simp [hexPairColon] at h
      exact ⟨[], by simp [h], fun e => by simp [hexPairColon]⟩
  | succ n ih =>
      intro cs r h
      match cs with
      | [] => simp [hexPairColon] at h
      | [a] => simp [hexPairColon] at h
      | [a, b] => simp [hexPairColon] at h
      | a :: b :: c :: cs =>
          rw [hexPairColon] at h
          by_cases hc : (isHexPy a && isHexPy b && c == ':') = true
          · rw [hc] at h
            simp only [if_true] at h
            obtain ⟨pre, hcs, hpre⟩ := ih cs r h
            refine ⟨a :: b :: c :: pre, by simp [hcs], fun e => ?_⟩
            show hexPairColon (n + 1) (a :: b :: c :: (pre ++ e)) = some e
            rw [hexPairColon, hc]
            simp only [if_true]
            exact hpre e
          · rw [eq_false_of_ne_true hc] at h
            simp at h

theorem macTailDollar_eq_true (r : List Char) :
    macTailDollar r = true ↔
      (∃ a b, r = [a, b] ∧ isHexPy a = true ∧ isHexPy b = true) ∨
      (∃ a b, r = [a, b, '\n'] ∧ isHexPy a = true ∧ isHexPy b = true) := by
  match r with
  | [] => simp [macTailDollar]
  | [a] => simp [macTailDollar]
  | [a, b] =>
      simp [macTailDollar, Bool.and_eq_true]
      aesop
  | [a, b, c] =>
      simp [macTailDollar, Bool.and_eq_true, beq_iff_eq]
      aesop
  | a :: b :: c :: d :: rest => simp [macTailDollar]

theorem pyCanonicalMac_eq_true (s : String) :
    pyCanonicalMac s = true ↔
      ∃ a b, hexPairColon 5 s.data = some [a, b] ∧
        isHexPy a = true ∧ isHexPy b = true := by
  unfold pyCanonicalMac
  cases h5 : hexPairColon 5 s.data with
  | none => simp
  | some r =>
      match r with
      | [] => simp
      | [a] => simp
      | [a, b] => simp [Bool.and_eq_true]; aesop
      | a :: b :: c :: rest => simp


theorem newline_data : ("\n" : String).data = ['\n'] := rfl

/-- C1 counterexample: the claim says the validator accepts exactly the
strings matching `^([0-9a-fA-F]{2}:){5}[0-9a-fA-F]{2}$`; but
`validate_mac` also accepts a single trailing newline (Python's `$`
matches just before a final newline) and non-ASCII decimal digits
(Python's `\d` is the Unicode Nd category): both the newline variant and
six groups of Arabic-Indic digits are accepted although neither matches
the spec's form. -/
theorem c1_counterexample :
    validate_mac "AA:BB:CC:11:22:33\n" = true ∧
    canonicalMac "AA:BB:CC:11:22:33\n" = false ∧
    validate_mac "٣٣:٣٣:٣٣:٣٣:٣٣:٣٣" = true ∧
    canonicalMac "٣٣:٣٣:٣٣:٣٣:٣٣:٣٣" = false := by
  decide

/-- C1 (amended): `validate_mac` returns true exactly for the strings of
six colon-separated groups of two characters from the class
`[\da-fA-F]` — Unicode Nd digits or ASCII hex letters, as Python's `re`
reads it — optionally followed by one trailing newline (the Python
semantics of the final `$`), and false for every other string. -/
theorem c1_validate_mac_iff_canonical_or_trailing_newline (s : String) :
    validate_mac s = true ↔
      pyCanonicalMac s = true ∨
      ∃ t : String, pyCanonicalMac t = true ∧ s = t ++ "\n" := by
  constructor
  · intro h
    unfold validate_mac at h
    cases h5 : hexPairColon 5 s.data with
    | none => rw [h5] at h; simp at h
    | some r =>
        rw [h5] at h
        rcases (macTailDollar_eq_true r).mp h with
          ⟨a, b, rfl, ha, hb⟩ | ⟨a, b, rfl, ha, hb⟩
        · left
          rw [pyCanonicalMac_eq_true]
          exact ⟨a, b, h5, ha, hb⟩
        · right
          obtain ⟨pre, hcs, hpre⟩ := hexPairColon_split 5 s.data _ h5
          refine ⟨String.mk (pre ++ [a, b]), ?_, ?_⟩
          · rw [pyCanonicalMac_eq_true]
            exact ⟨a, b, hpre [a, b], ha, hb⟩
          · apply String.ext
            rw [String.data_append]
            show s.data = (pre ++ [a, b]) ++ ['\n']
            rw [hcs]
            simp
  · rintro (hc | ⟨t, hc, rfl⟩)
    · rw [pyCanonicalMac_eq_true] at hc
      obtain ⟨a, b, h5, ha, hb⟩ := hc
      unfold validate_mac
      rw [h5]
      simp [macTailDollar, ha, hb]
    · rw [pyCanonicalMac_eq_true] at hc
      obtain ⟨a, b, h5, ha, hb⟩ := hc
      unfold validate_mac
      rw [String.data_append, newline_data,
        hexPairColon_append 5 t.data ['\n'] [a, b] h5]
      simp [macTailDollar, ha, hb]

theorem pyIndex_eq_none_iff {α : Type} (l : List α) (i : Int) :
    pyIndex l i = none ↔
      ((l.length : Int) ≤ i ∨ i < -(l.length : Int)) := by
  unfold pyIndex
  by_cases h0 : 0 ≤ i
  · rw [if_pos h0, List.get?_eq_none]
    omega
  · rw [if_neg h0]
    by_cases h1 : 0 ≤ (l.length : Int) + i
    · rw [if_pos h1, List.get?_eq_none]
      omega
    · rw [if_neg h1]
      simp only [true_iff]
      omega

/-- C3 counterexample: with the single-interface list `["eth0"]` the menu
offers only selection 1, so the entry `0` is out of range; yet the
selection code `interfaces[int(entry) - 1]` silently accepts it (Python
index `-1` is the last element) instead of raising an unhandled fault. -/
theorem c3_counterexample :
    selectInterface ["eth0"] "0" = Except.ok "eth0" := rfl

/-- C3 (amended): for a non-empty interface list, the selection step
raises an unhandled exception exactly for non-numeric entries
(`ValueError`) and for numeric entries above the list length or below
`1 - length` (`IndexError`); numeric entries between `1 - length` and `0`,
although outside the presented menu range, are silently accepted through
Python's negative indexing. -/
theorem c3_selection_error_characterization (l : List String)
    (entry : String) (_h : l ≠ []) :
    (∃ e, selectInterface l entry = Except.error e) ↔
      pyInt entry = none ∨
      ∃ n : Int, pyInt entry = some n ∧
        ((l.length : Int) < n ∨ n < 1 - (l.length : Int)) := by
  unfold selectInterface
  cases hp : pyInt entry with
  | none => simp [hp]
  | some n =>
      cases hi : pyIndex l (n - 1) with
      | none =>
          have hrange := (pyIndex_eq_none_iff l (n - 1)).mp hi
          simp only [hp, hi, Option.some.injEq]
          constructor
          · intro _
            right
            exact ⟨n, rfl, by omega⟩
          · intro _
            exact ⟨"IndexError", rfl⟩
      | some iface =>
          have hne : ¬((l.length : Int) ≤ n - 1 ∨ n - 1 < -(l.length : Int)) := by
            intro hc
            have hcon := (pyIndex_eq_none_iff l (n - 1)).mpr hc
            rw [hi] at hcon
            exact Option.noConfusion hcon
          simp only [hp, hi, Option.some.injEq]
          constructor
          · rintro ⟨e, he⟩
            exact absurd he (by simp)
          · rintro (hcontra | ⟨m, hm, hrange⟩)
            · exact absurd hcontra (by simp)
            · cases hm
              omega

/-- C3 amended-theorem witness: the two-interface list with the numeric
entry `5`, which is above the length and raises `IndexError`. -/
theorem c3_witness :
    ["eth0", "wlan0"] ≠ ([] : List String) ∧
    (∃ e, selectInterface ["eth0", "wlan0"] "5" = Except.error e) := by
  refine ⟨by simp, ?_⟩
  rw [c3_selection_error_characterization ["eth0", "wlan0"] "5" (by simp)]
  right
  exact ⟨5, rfl, by norm_num⟩

/-- C5: when the backup file's trimmed contents fail validation, restore
logs exactly the invalid-backup error and finishes normally, running no
subprocess at all, so the Mutator is never invoked. -/
theorem c5_invalid_backup_no_mutation (env : Env) (iface bf c : String)
    (hread : env.readFile bf = Except.ok c)
    (hval : validate_mac (pyStrip c) = false) :
    restore_mac env iface bf =
      ([Event.logError "Invalid MAC address in backup file."], Outcome.ok ()) ∧
    ∀ argv, Event.run argv ∉ (restore_mac env iface bf).1 := by
  have heq : restore_mac env iface bf =
      ([Event.logError "Invalid MAC address in backup file."], Outcome.ok ()) := by
    unfold restore_mac
    simp only [hread, hval]
    simp
  exact ⟨heq, fun argv => by rw [heq]; simp⟩

/-- C5 witness: `envBase` reads back an empty backup file, which fails
validation; restore only logs the error. -/
theorem c5_witness :
    envBase.readFile "eth0_mac_backup.txt" = Except.ok "" ∧
    validate_mac (pyStrip "") = false ∧
    restore_mac envBase "eth0" "eth0_mac_backup.txt" =
      ([Event.logError "Invalid MAC address in backup file."], Outcome.ok ()) :=
  ⟨rfl, by decide,
   (c5_invalid_backup_no_mutation envBase "eth0" "eth0_mac_backup.txt" ""
      rfl (by decide)).1⟩

/-- C2: when the backup file's content is exactly `DE:AD:BE:EF:00:01`,
restore invokes the Mutator (`change_mac`) with exactly that value: the
restore computation is the `change_mac env iface "DE:AD:BE:EF:00:01"`
computation followed, on success, by the restored-info log line. -/
theorem c2_restore_roundtrip (env : Env) (iface bf : String)
    (hread : env.readFile bf = Except.ok "DE:AD:BE:EF:00:01") :
    restore_mac env iface bf =
      (match (change_mac env iface "DE:AD:BE:EF:00:01").2 with
       | .ok _ =>
          ((change_mac env iface "DE:AD:BE:EF:00:01").1 ++
            [Event.logInfo ("Restored MAC address to DE:AD:BE:EF:00:01 on " ++
              iface ++ ".")], Outcome.ok ())
       | o => ((change_mac env iface "DE:AD:BE:EF:00:01").1, o)) := by
  unfold restore_mac
  simp only [hread]
  rw [show pyStrip "DE:AD:BE:EF:00:01" = "DE:AD:BE:EF:00:01" from by decide]
  rw [show validate_mac "DE:AD:BE:EF:00:01" = true from by decide]
  simp

/-- C2 witness: in `envC2` (Linux, all commands succeed, backup file
containing `DE:AD:BE:EF:00:01`) restore runs the three Linux mutation
commands with exactly that MAC and logs both success lines. -/
theorem c2_witness :
    envC2.readFile "eth0_mac_backup.txt" = Except.ok "DE:AD:BE:EF:00:01" ∧
    restore_mac envC2 "eth0" "eth0_mac_backup.txt" =
      ([Event.run ["sudo", "ifconfig", "eth0", "down"],
        Event.run ["sudo", "ifconfig", "eth0", "hw", "ether", "DE:AD:BE:EF:00:01"],
        Event.run ["sudo", "ifconfig", "eth0", "up"],
        Event.logInfo "MAC address changed to DE:AD:BE:EF:00:01 on eth0.",
        Event.logInfo "Restored MAC address to DE:AD:BE:EF:00:01 on eth0."],
       Outcome.ok ()) := by
  refine ⟨rfl, ?_⟩
  rw [c2_restore_roundtrip envC2 "eth0" "eth0_mac_backup.txt" rfl]
  rfl

theorem change_mac_outcome (env : Env) (iface m : String) :
    (change_mac env iface m).2 = Outcome.ok () ∨
    (change_mac env iface m).2 = Outcome.exited 1 := by
  unfold change_mac andThen get_os
  cases env.platform with
  | none => simp
  | some os => cases os <;> simp <;> split_ifs <;> simp

/-- C4 counterexample: in `envC4` the backup file holds a valid MAC but
every mutation command fails, so `change_mac` calls `sys.exit(1)` inside
`restore_mac`; `except Exception` does not catch `SystemExit`, and restore
terminates the process instead of returning control. -/
theorem c4_counterexample :
    (restore_mac envC4 "eth0" "eth0_mac_backup.txt").2 = Outcome.exited 1 := rfl

/-- C4 (amended): restore finishes normally on every file state (missing
file, read error, invalid content) and on successful mutation, but when
the backup content validates and the mutation it triggers fails,
`restore_mac` terminates the process with exit status 1 rather than
returning control to the orchestrator. -/
theorem c4_restore_outcome (env : Env) (iface bf : String) :
    (restore_mac env iface bf).2 = Outcome.ok () ∨
    (∃ c, env.readFile bf = Except.ok c ∧
      validate_mac (pyStrip c) = true ∧
      (change_mac env iface (pyStrip c)).2 = Outcome.exited 1 ∧
      (restore_mac env iface bf).2 = Outcome.exited 1) := by
  unfold restore_mac
  cases hr : env.readFile bf with
  | error e => simp [hr]
  | ok c =>
      simp only [hr]
      by_cases hv : validate_mac (pyStrip c) = true
      · simp only [hv, if_true]
        rcases change_mac_outcome env iface (pyStrip c) with ho | ho
        · left
          simp [ho]
        · right
          exact ⟨c, rfl, hv, ho, by simp [ho]⟩
      · left
        simp [hv]

/-- C6: on Linux the Mutator attempts the three commands in the order
down, set hardware address, up; when all succeed exactly these three
subprocess calls are made and success is logged; the first failure stops
the sequence (later commands are not attempted), logs the error, and
terminates the process with exit status 1, with no further (rollback)
subprocess call after the failure. -/
theorem c6_linux_mutation_sequence (env : Env) (iface m : String)
    (hos : env.platform = some OSType.linux) :
    (env.runOk ["sudo", "ifconfig", iface, "down"] = true →
      env.runOk ["sudo", "ifconfig", iface, "hw", "ether", m] = true →
      env.runOk ["sudo", "ifconfig", iface, "up"] = true →
      change_mac env iface m =
        ([Event.run ["sudo", "ifconfig", iface, "down"],
          Event.run ["sudo", "ifconfig", iface, "hw", "ether", m],
          Event.run ["sudo", "ifconfig", iface, "up"],
          Event.logInfo ("MAC address changed to " ++ m ++ " on " ++ iface ++ ".")],
         Outcome.ok ())) ∧
    (env.runOk ["sudo", "ifconfig", iface, "down"] = false →
      change_mac env iface m =
        ([Event.run ["sudo", "ifconfig", iface, "down"],
          Event.logError ("Error changing MAC address: " ++
            env.runErr ["sudo", "ifconfig", iface, "down"])],
         Outcome.exited 1)) ∧
    (env.runOk ["sudo", "ifconfig", iface, "down"] = true →
      env.runOk ["sudo", "ifconfig", iface, "hw", "ether", m] = false →
      change_mac env iface m =
        ([Event.run ["sudo", "ifconfig", iface, "down"],
          Event.run ["sudo", "ifconfig", iface, "hw", "ether", m],
          Event.logError ("Error changing MAC address: " ++
            env.runErr ["sudo", "ifconfig", iface, "hw", "ether", m])],
         Outcome.exited 1)) ∧
    (env.runOk ["sudo", "ifconfig", iface, "down"] = true →
      env.runOk ["sudo", "ifconfig", iface, "hw", "ether", m] = true →
      env.runOk ["sudo", "ifconfig", iface, "up"] = false →
      change_mac env iface m =
        ([Event.run ["sudo", "ifconfig", iface, "down"],
          Event.run ["sudo", "ifconfig", iface, "hw", "ether", m],
          Event.run ["sudo", "ifconfig", iface, "up"],
          Event.logError ("Error changing MAC address: " ++
            env.runErr ["sudo", "ifconfig", iface, "up"])],
         Outcome.exited 1)) := by
  refine ⟨fun h1 h2 h3 => ?_, fun h1 => ?_, fun h1 h2 => ?_, fun h1 h2 h3 => ?_⟩ <;>
    (unfold change_mac andThen get_os; simp [hos, h1]) <;> simp [h2] <;> simp [h3]

/-- C6 witness: in `envBase` (Linux, all commands succeed) the full
three-command sequence runs and success is logged. -/
theorem c6_witness :
    envBase.platform = some OSType.linux ∧
    change_mac envBase "eth0" "AA:BB:CC:11:22:33" =
      ([Event.run ["sudo", "ifconfig", "eth0", "down"],
        Event.run ["sudo", "ifconfig", "eth0", "hw", "ether", "AA:BB:CC:11:22:33"],
        Event.run ["sudo", "ifconfig", "eth0", "up"],
        Event.logInfo "MAC address changed to AA:BB:CC:11:22:33 on eth0."],
       Outcome.ok ()) :=
  ⟨rfl,
   (c6_linux_mutation_sequence envBase "eth0" "AA:BB:CC:11:22:33" rfl).1
     rfl rfl rfl⟩

/-- C7: on a Unix platform with a non-root effective UID, the whole run
of the script is the privilege-failure log line followed by exit status
1; in particular no subprocess of any kind, mutation included, is ever
invoked in such a session, whatever standard input holds. -/
theorem c7_nonroot_unix_no_mutation (env : Env)
    (hplat : env.platform = some OSType.linux ∨ env.platform = some OSType.macos)
    (heuid : env.euid ≠ 0) (stdin : List String) :
    mainFlow env stdin =
      ([Event.logError "This script requires root privileges. Please run with sudo."],
       Outcome.exited 1) ∧
    ∀ argv, Event.run argv ∉ (mainFlow env stdin).1 ∧
      Event.spawn argv ∉ (mainFlow env stdin).1 := by
  have hcp : check_permissions env =
      ([Event.logError "This script requires root privileges. Please run with sudo."],
       Outcome.exited 1) := by
    rcases hplat with h | h <;> simp [check_permissions, h, heuid]
  have heq : mainFlow env stdin =
      ([Event.logError "This script requires root privileges. Please run with sudo."],
       Outcome.exited 1) := by
    unfold mainFlow
    rw [hcp]
    rfl
  exact ⟨heq, fun argv => by rw [heq]; simp⟩

/-- C7 witness: `envNonRoot` (Linux, effective UID 1000): the run is the
privilege error and a fatal exit. -/
theorem c7_witness :
    envNonRoot.euid ≠ 0 ∧
    mainFlow envNonRoot [] =
      ([Event.logError "This script requires root privileges. Please run with sudo."],
       Outcome.exited 1) :=
  ⟨by decide,
   (c7_nonroot_unix_no_mutation envNonRoot (Or.inl rfl) (by decide) []).1⟩

theorem get_current_mac_no_write (env : Env) (iface : String) :
    ∀ p c, Event.fileWrite p c ∉ (get_current_mac env iface).1 := by
  intro p c
  unfold get_current_mac andThen get_os
  cases env.platform with
  | none => simp
  | some os =>
      cases os <;> simp <;>
        (cases env.checkOutput ["ifconfig", iface] <;>
          cases env.checkOutput ["getmac", "/FO", "CSV", "/V"] <;> simp)

theorem applyEvents_no_write (fs : String → Option String) :
    ∀ es : List Event, (∀ p c, Event.fileWrite p c ∉ es) →
      applyEvents fs es = fs := by
  intro es
  induction es generalizing fs with
  | nil => intro _; rfl
  | cons e es ih =>
      intro h
      have he : applyEvent fs e = fs := by
        cases e with
        | fileWrite p c =>
            exact absurd (List.mem_cons_self (Event.fileWrite p c) es) (h p c)
        | spawn a => rfl
        | run a => rfl
        | logInfo m => rfl
        | logError m => rfl
      show applyEvents (applyEvent fs e) es = fs
      rw [he]
      exact ih fs (fun p c => fun hm => h p c (List.mem_cons_of_mem e hm))

/-- C8: when the MAC Reader comes back empty during backup, `backup_mac`
appends exactly the failure log line, finishes normally (no exit, no
crash, so the orchestrator continues), and its whole trace leaves every
file system unchanged (no backup file is created). -/
theorem c8_backup_absent_reader (env : Env) (iface bf : String)
    (habs : (get_current_mac env iface).2 = Outcome.ok none) :
    backup_mac env iface bf =
      ((get_current_mac env iface).1 ++
        [Event.logError "Failed to backup MAC address."], Outcome.ok ()) ∧
    ∀ fs, applyEvents fs (backup_mac env iface bf).1 = fs := by
  have heq : backup_mac env iface bf =
      ((get_current_mac env iface).1 ++
        [Event.logError "Failed to backup MAC address."], Outcome.ok ()) := by
    unfold backup_mac andThen
    rcases hp : get_current_mac env iface with ⟨t, o⟩
    rw [hp] at habs
    simp only at habs
    subst habs
    simp
  refine ⟨heq, fun fs => ?_⟩
  rw [heq]
  apply applyEvents_no_write
  intro p c
  simp only [List.mem_append, List.mem_singleton]
  rintro (hm | hm)
  · exact get_current_mac_no_write env iface p c hm
  · exact Event.noConfusion hm

/-- C8 witness: in `envBase` the `ifconfig eth0` probe fails, the reader
returns an absent value, and backup only logs, leaving the (empty) file
system untouched. -/
theorem c8_witness :
    (get_current_mac envBase "eth0").2 = Outcome.ok none ∧
    backup_mac envBase "eth0" "eth0_mac_backup.txt" =
      ([Event.spawn ["ifconfig", "eth0"],
        Event.logError "Error getting MAC address: no output",
        Event.logError "Failed to backup MAC address."], Outcome.ok ()) ∧
    applyEvents (fun _ => none) (backup_mac envBase "eth0" "eth0_mac_backup.txt").1
      "eth0_mac_backup.txt" = none := by
  refine ⟨rfl, ?_, ?_⟩
  · rw [(c8_backup_absent_reader envBase "eth0" "eth0_mac_backup.txt" rfl).1]
    rfl
  · rw [(c8_backup_absent_reader envBase "eth0" "eth0_mac_backup.txt" rfl).2
      (fun _ => none)]

theorem tryEther_shape (cs tok : List Char) (h : tryEther cs = some tok) :
    tok.length = 17 ∧ tok.all isHexColon = true := by
  unfold tryEther at h
  split at h
  · split at h
    · rename_i hc
      cases h
      simpa [Bool.and_eq_true, beq_iff_eq] using hc
    · exact Option.noConfusion h
  · exact Option.noConfusion h

theorem searchEther_shape : ∀ cs tok : List Char, searchEther cs = some tok →
    tok.length = 17 ∧ tok.all isHexColon = true := by
  intro cs
  induction cs with
  | nil => intro tok h; exact Option.noConfusion h
  | cons c rest ih =>
      intro tok h
      rw [searchEther] at h
      cases ht : tryEther (c :: rest) with
      | some m =>
          simp only [ht] at h
          cases h
          exact tryEther_shape _ _ ht
      | none =>
          simp only [ht] at h
          exact ih tok h

theorem searchRun17_shape : ∀ cs tok : List Char, searchRun17 cs = some tok →
    tok.length = 17 ∧ tok.all isHexDash = true := by
  intro cs
  induction cs with
  | nil => intro tok h; exact Option.noConfusion h
  | cons c rest ih =>
      intro tok h
      rw [searchRun17] at h
      split at h
      · rename_i hc
        cases h
        simpa [Bool.and_eq_true, beq_iff_eq] using hc
      · exact ih tok h

theorem dashToColon_class (c : Char) (h : isHexDash c = true) :
    isHexColon (dashToColon c) = true := by
  by_cases hc : c = '-'
  · subst hc; decide
  · have hb : (c == '-') = false := by simp [hc]
    unfold isHexDash at h
    rw [Bool.or_eq_true] at h
    rcases h with h | h
    · simp [dashToColon, hb, isHexColon, h]
    · rw [hb] at h
      exact Bool.noConfusion h

theorem winMacScan_shape (iface : String) :
    ∀ (lines : List String) (s : String), winMacScan iface lines = some s →
      s.data.length = 17 ∧ s.data.all isHexColon = true := by
  intro lines
  induction lines with
  | nil => intro s h; exact Option.noConfusion h
  | cons line rest ih =>
      intro s h
      rw [winMacScan] at h
      cases hcb : containsSub line.data iface.data with
      | false =>
          simp only [hcb, Bool.false_eq_true, if_false] at h
          exact ih s h
      | true =>
          simp only [hcb, if_true] at h
          cases hr : searchRun17 line.data with
          | some tok =>
              simp only [hr] at h
              cases h
              obtain ⟨hl, ha⟩ := searchRun17_shape line.data tok hr
              constructor
              · show (tok.map dashToColon).length = 17
                simp [hl]
              · show (tok.map dashToColon).all isHexColon = true
                rw [List.all_eq_true] at ha ⊢
                intro x hx
                obtain ⟨y, hy, rfl⟩ := List.mem_map.mp hx
                exact dashToColon_class y (ha y hy)
          | none =>
              simp only [hr] at h
              exact ih s h

theorem get_current_mac_token_shape (env : Env) (iface m : String)
    (h : (get_current_mac env iface).2 = Outcome.ok (some m)) :
    m.data.length = 17 ∧ m.data.all isHexColon = true := by
  unfold get_current_mac andThen get_os at h
  cases hplat : env.platform with
  | none => simp only [hplat] at h; simp at h
  | some os =>
      cases os with
      | linux =>
          simp only [hplat] at h
          cases ho : env.checkOutput ["ifconfig", iface] with
          | ok output =>
              simp only [ho] at h
              simp at h
              cases hs : searchEther output.data with
              | some tok =>
                  rw [hs] at h
                  simp at h
                  subst h
                  exact searchEther_shape output.data tok hs
              | none => rw [hs] at h; simp at h
          | error e => simp only [ho] at h; simp at h
      | macos =>
          simp only [hplat] at h
          cases ho : env.checkOutput ["ifconfig", iface] with
          | ok output =>
              simp only [ho] at h
              simp at h
              cases hs : searchEther output.data with
              | some tok =>
                  rw [hs] at h
                  simp at h
                  subst h
                  exact searchEther_shape output.data tok hs
              | none => rw [hs] at h; simp at h
          | error e => simp only [ho] at h; simp at h
      | windows =>
          simp only [hplat] at h
          cases ho : env.checkOutput ["getmac", "/FO", "CSV", "/V"] with
          | ok output =>
              simp only [ho] at h
              simp at h
              exact winMacScan_shape iface (output.splitOn "\n") m h
          | error e => simp only [ho] at h; simp at h

theorem backup_mac_present (env : Env) (iface bf m : String)
    (hm : (get_current_mac env iface).2 = Outcome.ok (some m))
    (hw : env.writeOk bf = true) :
    backup_mac env iface bf =
      ((get_current_mac env iface).1 ++
        [Event.fileWrite bf m,
         Event.logInfo ("Backed up MAC address " ++ m ++ " to " ++ bf ++ ".")],
       Outcome.ok ()) := by
  unfold backup_mac andThen
  rcases hp : get_current_mac env iface with ⟨t, o⟩
  rw [hp] at hm
  simp only at hm
  subst hm
  simp [hw]

/-- C9 counterexample: in `envC9` the `ifconfig` output carries the
17-character hex-and-colon token `aaa:bb:cc:dd:ee:f` after `ether `; the
reader extracts it and backup persists it verbatim, although it is not of
the canonical `XX:XX:XX:XX:XX:XX` form — so not every persisted backup
string is a canonical MAC. -/
theorem c9_counterexample :
    backup_mac envC9 "eth0" "eth0_mac_backup.txt" =
      ([Event.spawn ["ifconfig", "eth0"],
        Event.fileWrite "eth0_mac_backup.txt" "aaa:bb:cc:dd:ee:f",
        Event.logInfo "Backed up MAC address aaa:bb:cc:dd:ee:f to eth0_mac_backup.txt."],
       Outcome.ok ()) ∧
    canonicalMac "aaa:bb:cc:dd:ee:f" = false :=
  ⟨rfl, by decide⟩

/-- C9 (amended): whatever tool output the MAC Reader extracts a value
from, backup persists exactly that extracted token, verbatim, as the sole
content of the backup file; the token is always 17 characters drawn from
hex digits and colons, but need not satisfy the canonical
`XX:XX:XX:XX:XX:XX` grouping. -/
theorem c9_backup_persists_extracted_token (env : Env) (iface bf m : String)
    (hm : (get_current_mac env iface).2 = Outcome.ok (some m))
    (hw : env.writeOk bf = true) :
    backup_mac env iface bf =
      ((get_current_mac env iface).1 ++
        [Event.fileWrite bf m,
         Event.logInfo ("Backed up MAC address " ++ m ++ " to " ++ bf ++ ".")],
       Outcome.ok ()) ∧
    m.data.length = 17 ∧ m.data.all isHexColon = true :=
  ⟨backup_mac_present env iface bf m hm hw,
   get_current_mac_token_shape env iface m hm⟩

/-- C9 amended-theorem witness: in `envC10` the reader extracts
`11:22:33:44:55:66` and backup writes exactly that token. -/
theorem c9_witness :
    (get_current_mac envC10 "eth0").2 = Outcome.ok (some "11:22:33:44:55:66") ∧
    envC10.writeOk "eth0_mac_backup.txt" = true ∧
    backup_mac envC10 "eth0" "eth0_mac_backup.txt" =
      ([Event.spawn ["ifconfig", "eth0"],
        Event.fileWrite "eth0_mac_backup.txt" "11:22:33:44:55:66",
        Event.logInfo "Backed up MAC address 11:22:33:44:55:66 to eth0_mac_backup.txt."],
       Outcome.ok ()) := by
  refine ⟨rfl, rfl, ?_⟩
  rw [(c9_backup_persists_extracted_token envC10 "eth0" "eth0_mac_backup.txt"
      "11:22:33:44:55:66" rfl rfl).1]
  rfl

/-- C10: whenever the reader returns a present value during backup and
the backup file can be opened for writing, the resulting file system
maps the backup file to exactly that value, whatever its prior contents
were — an earlier saved MAC is overwritten, not preserved. -/
theorem c10_backup_overwrites (env : Env) (iface bf m : String)
    (fs0 : String → Option String)
    (hm : (get_current_mac env iface).2 = Outcome.ok (some m))
    (hw : env.writeOk bf = true) :
    applyEvents fs0 (backup_mac env iface bf).1 bf = some m := by
  rw [backup_mac_present env iface bf m hm hw]
  simp [applyEvents, List.foldl_append, applyEvent]

/-- C10 witness: with a prior file system mapping the backup file to
`AA:AA:AA:AA:AA:AA`, running backup in `envC10` leaves the backup file
holding the freshly read `11:22:33:44:55:66`. -/
theorem c10_witness :
    (get_current_mac envC10 "eth0").2 = Outcome.ok (some "11:22:33:44:55:66") ∧
    envC10.writeOk "eth0_mac_backup.txt" = true ∧
    ((fun _ => some "AA:AA:AA:AA:AA:AA") : String → Option String)
      "eth0_mac_backup.txt" = some "AA:AA:AA:AA:AA:AA" ∧
    applyEvents (fun _ => some "AA:AA:AA:AA:AA:AA")
      (backup_mac envC10 "eth0" "eth0_mac_backup.txt").1 "eth0_mac_backup.txt" =
      some "11:22:33:44:55:66" :=
  ⟨rfl, rfl, rfl,
   c10_backup_overwrites envC10 "eth0" "eth0_mac_backup.txt" "11:22:33:44:55:66"
     (fun _ => some "AA:AA:AA:AA:AA:AA") rfl rfl⟩
